import Mathlib

/-!
Verification of the PackSafe dependency-scan pipeline
(`packages/server/src/routes/scan.ts`, `packages/server/src/controllers/projectController.ts`,
`packages/server/src/models/ScanResult.ts`).

JavaScript strings are modelled as Lean `String`; JS objects used as
string-keyed maps are modelled as ordered association lists, matching JS
property insertion order.  All functions are shallow embeddings of the
TypeScript source; comments on each definition name the source function.
-/

set_option autoImplicit false

namespace PackSafe

/-! ### JS string primitives -/

/-- The character class of the regex `/[\^~>=<]/` used to clean version ranges. -/
def isRangeChar (c : Char) : Bool :=
  c = '^' || c = '~' || c = '>' || c = '=' || c = '<'

/-- Embeds `version.replace(/[\^~>=<]/g, '')`: removes every occurrence of
`^ ~ > = <` (global replace by the empty string is a character filter).
Appears identically in `analyzeDependencies` (scan.ts) and in
`LocalScanner.scanFile` (localScanner.ts). -/
def removeRangeChars (s : String) : String :=
  ⟨s.data.filter (fun c => !isRangeChar c)⟩

/-- Embeds `s.split('.')` on the character list: JS `String.prototype.split` with a
one-character separator.  `"".split('.')` is `[""]`, and leading/trailing
separators produce empty components, as in JS. -/
def splitOnDot : List Char → List (List Char)
  | [] => [[]]
  | c :: cs =>
    if c = '.' then [] :: splitOnDot cs
    else
      match splitOnDot cs with
      | [] => [[c]]
      | h :: t => (c :: h) :: t

/-- Numeric value of a decimal digit list (most significant first). -/
def digitsToNat : List Char → Nat
  | [] => 0
  | c :: cs => digitsToNat cs + (c.toNat - '0'.toNat) * 10 ^ cs.length

/-- JS `Number(component)` restricted to the forms a dot-free version
component can take: the empty string converts to `0`, a decimal digit string
to its value, an optional leading `-` negates, and anything else is `NaN`
(returned as `none`).  Exotic numeric forms (hex, exponent) are outside the
version-string grammar and not modelled. -/
def jsNumber (cs : List Char) : Option Int :=
  match cs with
  | [] => some 0
  | '-' :: rest =>
    if rest ≠ [] && rest.all Char.isDigit then some (-(digitsToNat rest : Int)) else none
  | _ =>
    if cs.all Char.isDigit then some (digitsToNat cs) else none

/-- JS `>` on two values that may be `NaN`/`undefined` (`none`): any
comparison involving `NaN` or `undefined` is `false`. -/
def jsGt : Option Int → Option Int → Bool
  | some a, some b => a > b
  | _, _ => false

/-- Component `i` of `s.split('.').map(Number)` as accessed by array
destructuring: `undefined` (`none`) when the index is out of range, `NaN`
(`none`) when `Number` fails. -/
def versionComponent (s : String) (i : Nat) : Option Int :=
  ((splitOnDot s.data).get? i).bind jsNumber

/-- JS `<` on strings: lexicographic comparison of UTF-16 code units
(identical to code-point order for the ASCII version strings at issue). -/
def lexLt : List Char → List Char → Bool
  | _, [] => false
  | [], _ :: _ => true
  | a :: as, b :: bs => a < b || (a = b && lexLt as bs)

/-- JS `a < b` on strings. -/
def strLt (a b : String) : Bool := lexLt a.data b.data

/-- JS `a >= b` on strings (total order, so `a >= b` is `¬(a < b)`). -/
def strGe (a b : String) : Bool := !strLt a b

/-- Whether `needle` occurs as a contiguous run at the start of `haystack`. -/
def isLeadingRun : List Char → List Char → Bool
  | [], _ => true
  | _ :: _, [] => false
  | a :: as, b :: bs => a = b && isLeadingRun as bs

/-- JS `haystack.includes(needle)`: substring containment. -/
def containsSub (needle haystack : List Char) : Bool :=
  match haystack with
  | [] => isLeadingRun needle []
  | _ :: t => isLeadingRun needle haystack || containsSub needle t

/-! ### Version comparison

`isNewerVersion` in scan.ts delegates to `compareVersions` from the
third-party `compare-versions` npm library, which is not vendored in this
repository.  -/

/-- A dot-separated component as a natural number, for the numeric-triple
comparison: a digit string converts to its value; a missing or non-numeric
component is treated as `0`. -/
def tripleComponent (s : String) (i : Nat) : Nat :=
  match (splitOnDot s.data).get? i with
  | none => 0
  | some cs => if cs ≠ [] && cs.all Char.isDigit then digitsToNat cs else 0

/-- The numeric `(major, minor, patch)` triple of a version string:
`major.minor.patch` as three integers, missing components treated as `0`. -/
def versionTriple (s : String) : Nat × Nat × Nat :=
  (tripleComponent s 0, tripleComponent s 1, tripleComponent s 2)

/-- Modelled from the spec: the `compare-versions` npm library called by
`isNewerVersion` is not vendored under `src/`; following the spec's words it
is modelled as the component-wise numeric comparison of `(major, minor,
patch)` triples with missing components treated as `0`, returning a positive,
zero or negative sign. -/
def compareVersions (a b : String) : Int :=
  let ta := versionTriple a
  let tb := versionTriple b
  if ta.1 > tb.1 then 1 else if ta.1 < tb.1 then -1
  else if ta.2.1 > tb.2.1 then 1 else if ta.2.1 < tb.2.1 then -1
  else if ta.2.2 > tb.2.2 then 1 else if ta.2.2 < tb.2.2 then -1
  else 0

/-- Embeds `isNewerVersion(versionA, versionB)` (scan.ts): `compareVersions(versionB,
versionA) > 0`.  The source's `catch` clause (returning `false` on an invalid
semver exception) has no counterpart because the modelled comparison is
total. -/
def isNewerVersion (versionA versionB : String) : Bool :=
  compareVersions versionB versionA > 0

/-- Embeds `calculateUpdateSeverity(currentVersion, latestVersion)` (scan.ts):
destructures `version.split('.').map(Number)` into `[major, minor]`
(components beyond the second are ignored; a missing component destructures
to `undefined`, whose comparisons are `false`), then returns `'high'` when
`latestMajor > currentMajor`, `'medium'` when `latestMinor > currentMinor`,
else `'low'`.  The source's `try`/`catch` is dead: nothing in the body
throws. -/
def calculateUpdateSeverity (currentVersion latestVersion : String) : String :=
  if jsGt (versionComponent latestVersion 0) (versionComponent currentVersion 0) then "high"
  else if jsGt (versionComponent latestVersion 1) (versionComponent currentVersion 1) then "medium"
  else "low"

/-! ### Vulnerability checking (`checkVulnerabilities`, scan.ts) -/

/-- A vulnerability record as returned by `checkVulnerabilities`: either an
entry of the static `knownVulnerablePackages` table (whose JS object lacks a
`references` key, modelled as the empty list) or a record assembled from a
GitHub advisory. -/
structure VulnInfo where
  id : String
  severity : String
  description : String
  references : List String := []
  deriving Repr, DecidableEq

/-- The static `knownVulnerablePackages` table inside `checkVulnerabilities`:
`knownVulnerablePackages[packageName]?.[version]`, an exact-string nested
lookup. -/
def knownVulnerablePackages (packageName version : String) : Option VulnInfo :=
  if packageName = "lodash" && version = "4.17.0" then
    some ⟨"CVE-2019-10744", "high", "Prototype pollution vulnerability in Lodash", []⟩
  else if packageName = "axios" && version = "0.19.0" then
    some ⟨"CVE-2020-28168", "medium", "Axios SSRF vulnerability", []⟩
  else
    none

/-- One element of `advisory.affected.ranges`: the code reads `range.type`,
`range.events[0].introduced` and `range.events[1]?.fixed` (`none` when the
events array has no second element or it lacks `fixed`). -/
structure AdvisoryRange where
  rtype : String
  introduced : String
  fixed : Option String
  deriving Repr, DecidableEq

/-- A GitHub security advisory as consumed by `checkVulnerabilities`:
`affected?.package?.name` (`none` when a level is absent), `ranges`, and the
optional `id`, `severity`, `summary` and `references` fields. -/
structure Advisory where
  affectedName : Option String
  ranges : List AdvisoryRange
  id : Option String
  severity : Option String
  summary : Option String
  references : List String := []
  deriving Repr, DecidableEq

/-- The range-membership test inside `checkVulnerabilities`:
`range.type === 'SEMVER' && version >= range.events[0].introduced &&
(!range.events[1]?.fixed || version < range.events[1].fixed)` — note the
comparisons are JS *string* comparisons (lexical), not semver ones. -/
def rangeMatches (version : String) (range : AdvisoryRange) : Bool :=
  range.rtype = "SEMVER" && strGe version range.introduced &&
    (match range.fixed with
     | none => true
     | some f => strLt version f)

/-- The record built from a matching advisory.  When `advisory.id` is falsy
the source substitutes `` `GHSA-${Math.random().toString(36).substr(2, 8)}` ``;
the random suffix is modelled by a fixed placeholder (no claim inspects it). -/
def vulnOfAdvisory (a : Advisory) : VulnInfo :=
  { id := a.id.getD "GHSA-random"
    severity := a.severity.getD "medium"
    description := a.summary.getD "Security vulnerability detected"
    references := a.references }

/-- The `for (const advisory of response.data)` loop: the first advisory whose
`affected.package.name` equals the package name and one of whose ranges
matches the version yields a record; advisories that match the name but not
the version are skipped and the loop continues. -/
def findVulnerability (packageName version : String) : List Advisory → Option VulnInfo
  | [] => none
  | a :: rest =>
    if a.affectedName = some packageName && a.ranges.any (rangeMatches version) then
      some (vulnOfAdvisory a)
    else
      findVulnerability packageName version rest

/-- The shape of an axios rejection as inspected by the scan code:
`error.response?.status` and `error.response?.data?.message`. -/
structure JsError where
  status : Option Nat
  message : Option String
  deriving Repr, DecidableEq

/-- The rate-limit test applied to a caught error, in both
`checkVulnerabilities` and `analyzeDependencies`:
`error.response?.status === 403 &&
error.response?.data?.message?.includes('rate limit exceeded')`. -/
def isRateLimitError (e : JsError) : Bool :=
  e.status = some 403 &&
    (e.message.map (fun m => containsSub "rate limit exceeded".data m.data)).getD false

/-- Outcome of the advisory-API request
`axios.get(SECURITY_ADVISORIES_API + '?package=' + name)`:
a successful response whose `data` is an array, a successful response whose
`data` is missing or not an array, or a rejection. -/
inductive AdvisoryOutcome where
  | ok (data : List Advisory)
  | notArray
  | err (e : JsError)
  deriving Repr, DecidableEq

/-- What one `checkVulnerabilities` call did: its return value and whether it
issued the advisory-API network request. -/
structure CheckResult where
  info : Option VulnInfo
  apiCalled : Bool
  deriving Repr, DecidableEq

/-- Embeds `checkVulnerabilities(packageName, version)` (scan.ts), as a function of
the advisory-API oracle.  The static table is consulted first and a hit
returns without any network request.  Otherwise the API is queried; a
rejection — rate-limit 403 or any other error — is caught by the function's
own inner `catch`, only logged, and control falls through to `return null`,
so every path returns normally: the `Except.error` constructor of the result
type (the function's ability to throw, which `analyzeDependencies` guards
against) is never produced. -/
def checkVulnerabilities (advisoryApi : String → AdvisoryOutcome)
    (packageName version : String) : Except JsError CheckResult :=
  match knownVulnerablePackages packageName version with
  | some v => .ok ⟨some v, false⟩
  | none =>
    match advisoryApi packageName with
    | .ok data => .ok ⟨findVulnerability packageName version data, true⟩
    | .notArray => .ok ⟨none, true⟩
    | .err _ => .ok ⟨none, true⟩

/-! ### Registry lookup (`getLatestVersion`, scan.ts) -/

/-- Outcome of the npm-registry request for a package: a successful response
(whose `dist-tags.latest` may be absent) or a network/HTTP failure (axios
rejection). -/
inductive RegistryOutcome where
  | success (latest : Option String)
  | failure
  deriving Repr, DecidableEq

/-- Embeds `getLatestVersion(packageName)` (scan.ts):
`response.data?.['dist-tags']?.latest || null` on success, and the `catch`
returns `null` on failure; a falsy (empty) latest string also collapses to
`null` through `||`. -/
def getLatestVersion (registry : String → RegistryOutcome) (packageName : String) :
    Option String :=
  match registry packageName with
  | .success (some l) => if l = "" then none else some l
  | .success none => none
  | .failure => none

/-! ### The scan fold (`analyzeDependencies`, scan.ts)

The source processes `Object.entries(dependencies)` in batches of 5 with an
inter-batch delay, the batch promises running concurrently on the
single-threaded event loop.  Each package's writes touch only its own key,
and the one cross-package interaction — reading the shared `rateLimited`
flag — is interleaving-independent because `checkVulnerabilities` never
rejects (see its doc comment), so the flag can never be set.  The fold below
therefore processes entries sequentially; batching affects only timing. -/

/-- An `outdated[name]` record: `{current, latest, severity}`. -/
structure OutdatedInfo where
  current : String
  latest : String
  severity : String
  deriving Repr, DecidableEq

/-- A `vulnerable[name]` record: `{current, vulnerability}`. -/
structure VulnEntry where
  current : String
  vulnerability : VulnInfo
  deriving Repr, DecidableEq

/-- The mutable state accumulated by `analyzeDependencies`, extended with
traces of the npm-registry and advisory-API requests issued (for the
no-network and no-retry claims). -/
structure ScanAcc where
  outdated : List (String × OutdatedInfo)
  vulnerable : List (String × VulnEntry)
  rateLimited : Bool
  registryCalls : List String
  advisoryCalls : List String
  deriving Repr, DecidableEq

/-- The body of the per-package callback in `analyzeDependencies`: clean the
version, fetch the latest version (always one registry request), classify
outdatedness, then — unless `rateLimited` is already set — run the
vulnerability check; its surrounding `catch` sets `rateLimited` on a
rate-limit rejection and merely logs any other rejection. -/
def analyzeStep (registry : String → RegistryOutcome)
    (advisoryApi : String → AdvisoryOutcome) (acc : ScanAcc)
    (entry : String × String) : ScanAcc :=
  let name := entry.1
  let cleanVersion := removeRangeChars entry.2
  let latestVersion := getLatestVersion registry name
  let acc := { acc with registryCalls := acc.registryCalls ++ [name] }
  let acc :=
    match latestVersion with
    | some l =>
      if isNewerVersion cleanVersion l then
        { acc with
          outdated := acc.outdated ++
            [(name, OutdatedInfo.mk cleanVersion l (calculateUpdateSeverity cleanVersion l))] }
      else acc
    | none => acc
  if acc.rateLimited then acc
  else
    match checkVulnerabilities advisoryApi name cleanVersion with
    | .ok r =>
      let acc := { acc with
        advisoryCalls := acc.advisoryCalls ++ (if r.apiCalled then [name] else []) }
      match r.info with
      | some v => { acc with vulnerable := acc.vulnerable ++ [(name, VulnEntry.mk cleanVersion v)] }
      | none => acc
    | .error e =>
      if isRateLimitError e then { acc with rateLimited := true } else acc

/-- Embeds `analyzeDependencies(dependencies)` (scan.ts) over the entry list of the
dependency object, as a function of the two HTTP oracles.  The outer
`try`/`catch` is dead (every callee handles its own errors), so the function
always returns `{outdated, vulnerable, rateLimited}`. -/
def analyzeDependencies (registry : String → RegistryOutcome)
    (advisoryApi : String → AdvisoryOutcome)
    (entries : List (String × String)) : ScanAcc :=
  entries.foldl (analyzeStep registry advisoryApi) ⟨[], [], false, [], []⟩

/-! ### The scan route handler and persistence
(`router.post('/package-json')` in scan.ts, `ScanResult.ts`,
`getProjectStatusByName` in projectController.ts) -/

/-- The parts of a request's `package.json` the handler reads:
`dependencies` and `devDependencies` objects (ordered string maps). -/
structure PackageJson where
  dependencies : List (String × String)
  devDependencies : List (String × String)
  deriving Repr, DecidableEq

/-- JS object spread `{...a, ...b}` on string-keyed objects: keys of `a` in
order (values overridden by `b` on collision), then keys of `b` not in `a`,
in order. -/
def jsMerge (a b : List (String × String)) : List (String × String) :=
  a.map (fun p => (p.1, ((b.lookup p.1).getD p.2))) ++
    b.filter (fun p => (a.lookup p.1).isNone)

/-- JS `x || default` for an optional string: `undefined` and the empty
string are falsy. -/
def jsOrElse (x : Option String) (d : String) : String :=
  match x with
  | some s => if s = "" then d else s
  | none => d

/-- The `summary` object: counts of outdated, vulnerable and total
dependencies (`Object.keys(...).length` of maps whose keys are unique). -/
structure Summary where
  outdated : Nat
  vulnerable : Nat
  total : Nat
  deriving Repr, DecidableEq

/-- The 200-response body (`responseData`): `success: true`, the summary, the
details object, and a `warnings` object carrying `rateLimited: true` that is
attached only when the analysis reported rate limiting. -/
structure ResponseBody where
  summary : Summary
  projectName : String
  scanDate : String
  outdated : List (String × OutdatedInfo)
  vulnerable : List (String × VulnEntry)
  warningsRateLimited : Option Bool
  deriving Repr, DecidableEq

/-- A document of the `scanresults` collection as constructed by the handler
(`new ScanResult({...})`); `scanDate` defaults server-side and the
`timestamps` fields are managed by the ODM, so neither appears here. -/
structure StoredScan where
  userId : String
  projectName : String
  filePath : String
  packageJsonContent : PackageJson
  summary : Summary
  outdated : List (String × OutdatedInfo)
  vulnerable : List (String × VulnEntry)
  deriving Repr, DecidableEq

/-- A document of the `projects` collection, with the rollup counters read by
`getProjectStatusByName` (`outdatedCount`, `vulnerabilityCount`; the shared
`ProjectInfo` type also carries `lastScanned`). -/
structure Project where
  name : String
  userId : String
  outdatedCount : Nat
  vulnerabilityCount : Nat
  lastScanned : Option String
  deriving Repr, DecidableEq

/-- The two persisted collections the scan path touches. -/
structure Db where
  scans : List StoredScan
  projects : List Project
  deriving Repr, DecidableEq

/-- Result of one handler invocation: HTTP status, the 200-response body
(`none` for the 400/401 error bodies), and the database afterwards. -/
structure HandlerResult where
  status : Nat
  body : Option ResponseBody
  db : Db
  deriving Repr, DecidableEq

/-- Embeds the handler of `POST /api/scan/package-json` (scan.ts): validates the body and the
authenticated user, merges `dependencies` and `devDependencies`, runs
`analyzeDependencies`, builds the summary and response, saves a new
`ScanResult` — a database error there is caught and only logged
(`saveOk = false` models `scanResult.save()` rejecting) — and attaches the
rate-limit warning before responding 200.  `now` stands for
`new Date().toISOString()`. -/
def scanPackageJsonHandler (registry : String → RegistryOutcome)
    (advisoryApi : String → AdvisoryOutcome) (userId : Option String)
    (packageJson : Option PackageJson) (projectName filePath : Option String)
    (now : String) (saveOk : Bool) (db : Db) : HandlerResult :=
  match packageJson with
  | none => ⟨400, none, db⟩
  | some pj =>
    match userId with
    | none => ⟨401, none, db⟩
    | some uid =>
      let allDependencies := jsMerge pj.dependencies pj.devDependencies
      let res := analyzeDependencies registry advisoryApi allDependencies
      let summary : Summary :=
        ⟨res.outdated.length, res.vulnerable.length, allDependencies.length⟩
      let pn := jsOrElse projectName "Unknown Project"
      let body : ResponseBody :=
        ⟨summary, pn, now, res.outdated, res.vulnerable,
          if res.rateLimited then some true else none⟩
      let db' :=
        if saveOk then
          { db with
            scans := db.scans ++
              [⟨uid, pn, jsOrElse filePath "package.json", pj, summary,
                res.outdated, res.vulnerable⟩] }
        else db
      ⟨200, some body, db'⟩

/-- The body of the 200 response of `GET /api/projects/:name/status`
(`getProjectStatusByName`, projectController.ts). -/
structure StatusBody where
  outdated : Nat
  vulnerable : Nat
  deriving Repr, DecidableEq

/-- Embeds `getProjectStatusByName` (projectController.ts): `Project.findOne({name,
userId})`; zeros when no project exists, otherwise the stored rollup
counters. -/
def getProjectStatusByName (db : Db) (name userId : String) : StatusBody :=
  match db.projects.find? (fun p => p.name = name && p.userId = userId) with
  | none => ⟨0, 0⟩
  | some p => ⟨p.outdatedCount, p.vulnerabilityCount⟩

/-! ### Reference definitions following the spec's words -/

/-- Reference strict order on version strings following the spec's words:
component-wise numeric comparison of `(major, minor, patch)` as three
integers, missing components treated as `0`. -/
def numericTripleLt (a b : String) : Bool :=
  let ta := versionTriple a
  let tb := versionTriple b
  ta.1 < tb.1 ||
    (ta.1 = tb.1 && (ta.2.1 < tb.2.1 || (ta.2.1 = tb.2.1 && ta.2.2 < tb.2.2)))

/-- Reference outdatedness predicate following the spec's words: the declared
(cleaned) version is strictly less than the latest published version per
simple numeric triple comparison. -/
def specOutdated (current latest : String) : Bool :=
  numericTripleLt current latest

/-- The string consists only of decimal digits and dots. -/
def digitsDotsOnly (s : String) : Bool :=
  s.data.all (fun c => c.isDigit || c = '.')

/-- The string consists only of decimal digits, dots, and the range-operator
characters removed by cleaning. -/
def cleanableOnly (s : String) : Bool :=
  s.data.all (fun c => c.isDigit || c = '.' || isRangeChar c)

/-! ### Characterization of the scan fold -/

/-- What one package contributes to the `outdated` map. -/
def entryOutdated (registry : String → RegistryOutcome) (e : String × String) :
    Option (String × OutdatedInfo) :=
  match getLatestVersion registry e.1 with
  | some l =>
    if isNewerVersion (removeRangeChars e.2) l then
      some (e.1, OutdatedInfo.mk (removeRangeChars e.2) l
        (calculateUpdateSeverity (removeRangeChars e.2) l))
    else none
  | none => none

/-- What one package contributes to the `vulnerable` map. -/
def entryVuln (advisoryApi : String → AdvisoryOutcome) (e : String × String) :
    Option (String × VulnEntry) :=
  match checkVulnerabilities advisoryApi e.1 (removeRangeChars e.2) with
  | .ok r => r.info.map (fun v => (e.1, VulnEntry.mk (removeRangeChars e.2) v))
  | .error _ => none

/-- The package's cleaned version hits the static known-vulnerable table. -/
def staticHit (e : String × String) : Bool :=
  (knownVulnerablePackages e.1 (removeRangeChars e.2)).isSome

/-- The vulnerability record `checkVulnerabilities` settles on: the static
table entry if the cleaned version hits it, otherwise the first matching
advisory of a successful API response, otherwise `null`. -/
def checkInfo (advisoryApi : String → AdvisoryOutcome) (packageName version : String) :
    Option VulnInfo :=
  match knownVulnerablePackages packageName version with
  | some w => some w
  | none =>
    match advisoryApi packageName with
    | .ok data => findVulnerability packageName version data
    | .notArray => none
    | .err _ => none

theorem checkVulnerabilities_eq (advisoryApi : String → AdvisoryOutcome)
    (packageName version : String) :
    checkVulnerabilities advisoryApi packageName version =
      .ok ⟨checkInfo advisoryApi packageName version,
        !(knownVulnerablePackages packageName version).isSome⟩ := by
  unfold checkVulnerabilities checkInfo
  rcases knownVulnerablePackages packageName version with _ | w
  · rcases advisoryApi packageName with data | _ | e' <;> rfl
  · rfl

theorem entryVuln_eq (advisoryApi : String → AdvisoryOutcome) (e : String × String) :
    entryVuln advisoryApi e =
      (checkInfo advisoryApi e.1 (removeRangeChars e.2)).map
        (fun v => (e.1, VulnEntry.mk (removeRangeChars e.2) v)) := by
  unfold entryVuln
  rw [checkVulnerabilities_eq]

theorem analyzeStep_eq (registry : String → RegistryOutcome)
    (advisoryApi : String → AdvisoryOutcome) (acc : ScanAcc)
    (e : String × String) (h : acc.rateLimited = false) :
    analyzeStep registry advisoryApi acc e =
      { outdated := acc.outdated ++ (entryOutdated registry e).toList
        vulnerable := acc.vulnerable ++ (entryVuln advisoryApi e).toList
        rateLimited := false
        registryCalls := acc.registryCalls ++ [e.1]
        advisoryCalls := acc.advisoryCalls ++ (if staticHit e then [] else [e.1]) } := by
  simp only [analyzeStep, checkVulnerabilities_eq, entryVuln_eq]
  unfold entryOutdated staticHit
  rcases hl : getLatestVersion registry e.1 with _ | l
  · rcases hk : knownVulnerablePackages e.1 (removeRangeChars e.2) with _ | w <;>
      rcases hi : checkInfo advisoryApi e.1 (removeRangeChars e.2) with _ | v <;>
      simp [hl, h, hk, hi]
  · by_cases hn : isNewerVersion (removeRangeChars e.2) l <;>
      rcases hk : knownVulnerablePackages e.1 (removeRangeChars e.2) with _ | w <;>
      rcases hi : checkInfo advisoryApi e.1 (removeRangeChars e.2) with _ | v <;>
      simp [hl, h, hk, hi, hn]

theorem foldl_analyzeStep (registry : String → RegistryOutcome)
    (advisoryApi : String → AdvisoryOutcome) :
    ∀ (es : List (String × String)) (acc : ScanAcc), acc.rateLimited = false →
      es.foldl (analyzeStep registry advisoryApi) acc =
        { outdated := acc.outdated ++ es.filterMap (entryOutdated registry)
          vulnerable := acc.vulnerable ++ es.filterMap (entryVuln advisoryApi)
          rateLimited := false
          registryCalls := acc.registryCalls ++ es.map Prod.fst
          advisoryCalls := acc.advisoryCalls ++
            (es.filter (fun e => !staticHit e)).map Prod.fst }
  | [], acc, h => by
    cases acc
    simp_all
  | e :: es, acc, h => by
    rw [List.foldl_cons, analyzeStep_eq registry advisoryApi acc e h,
      foldl_analyzeStep registry advisoryApi es _ rfl]
    simp only [List.filterMap_cons, List.map_cons, List.filter_cons]
    rcases entryOutdated registry e with _ | o <;>
      rcases entryVuln advisoryApi e with _ | v <;>
      by_cases hs : staticHit e <;>
      simp [hs, List.append_assoc]

/-- Characterizes `analyzeDependencies` in closed form: each package contributes
independently; the rate-limited flag is always `false` on return; every
package incurs exactly one registry request, and exactly the packages
missing the static table incur one advisory request each. -/
theorem analyzeDependencies_eq (registry : String → RegistryOutcome)
    (advisoryApi : String → AdvisoryOutcome) (entries : List (String × String)) :
    analyzeDependencies registry advisoryApi entries =
      { outdated := entries.filterMap (entryOutdated registry)
        vulnerable := entries.filterMap (entryVuln advisoryApi)
        rateLimited := false
        registryCalls := entries.map Prod.fst
        advisoryCalls := (entries.filter (fun e => !staticHit e)).map Prod.fst } := by
  rw [analyzeDependencies, foldl_analyzeStep registry advisoryApi entries _ rfl]
  simp

theorem entryOutdated_key (registry : String → RegistryOutcome)
    (e : String × String) (p : String × OutdatedInfo)
    (h : entryOutdated registry e = some p) : p.1 = e.1 := by
  unfold entryOutdated at h
  split at h
  · split at h
    · injection h with h'
      rw [← h']
    · exact absurd h (by simp)
  · exact absurd h (by simp)

theorem entryVuln_key (advisoryApi : String → AdvisoryOutcome)
    (e : String × String) (p : String × VulnEntry)
    (h : entryVuln advisoryApi e = some p) : p.1 = e.1 := by
  rw [entryVuln_eq] at h
  obtain ⟨v, _, hfv⟩ := Option.map_eq_some'.mp h
  rw [← hfv]

/-- Key membership in a `filterMap`-built association list, for entry
functions that preserve the key. -/
theorem mem_keys_filterMap {β : Type} {f : String × String → Option (String × β)}
    (hf : ∀ e p, f e = some p → p.1 = e.1) {es : List (String × String)} {name : String} :
    name ∈ (es.filterMap f).map Prod.fst ↔
      ∃ e ∈ es, e.1 = name ∧ (f e).isSome := by
  constructor
  · intro h
    obtain ⟨p, hp, hpk⟩ := List.mem_map.mp h
    obtain ⟨e, he, hfe⟩ := List.mem_filterMap.mp hp
    exact ⟨e, he, by rw [← hf e p hfe, hpk], by rw [hfe]; rfl⟩
  · rintro ⟨e, he, hk, hs⟩
    obtain ⟨p, hp⟩ := Option.isSome_iff_exists.mp hs
    exact List.mem_map.mpr ⟨p, List.mem_filterMap.mpr ⟨e, he, hp⟩, by rw [hf e p hp, hk]⟩

/-- In a list with `Nodup` keys, two members with the same key coincide. -/
theorem eq_of_mem_of_nodup_keys {β : Type} {es : List (String × β)}
    (hnd : (es.map Prod.fst).Nodup) {e1 e2 : String × β}
    (h1 : e1 ∈ es) (h2 : e2 ∈ es) (hk : e1.1 = e2.1) : e1 = e2 :=
  List.inj_on_of_nodup_map hnd h1 h2 hk

/-- The modelled library comparator agrees with the reference numeric-triple
order (both are spec-modelled; see `compareVersions`). -/
theorem isNewerVersion_eq_specOutdated (a b : String) :
    isNewerVersion a b = specOutdated a b := by
  unfold isNewerVersion compareVersions specOutdated numericTripleLt
  obtain ⟨a1, a2, a3⟩ := versionTriple a
  obtain ⟨b1, b2, b3⟩ := versionTriple b
  simp only []
  split_ifs <;> simp_all <;> omega

theorem specOutdated_irrefl (v : String) : specOutdated v v = false := by
  unfold specOutdated numericTripleLt
  obtain ⟨v1, v2, v3⟩ := versionTriple v
  simp

/-- The `ScanResult` document the handler constructs for a request. -/
def scanRecord (registry : String → RegistryOutcome)
    (advisoryApi : String → AdvisoryOutcome) (uid : String) (pj : PackageJson)
    (projectName filePath : Option String) : StoredScan :=
  let allDependencies := jsMerge pj.dependencies pj.devDependencies
  let res := analyzeDependencies registry advisoryApi allDependencies
  ⟨uid, jsOrElse projectName "Unknown Project", jsOrElse filePath "package.json", pj,
    ⟨res.outdated.length, res.vulnerable.length, allDependencies.length⟩,
    res.outdated, res.vulnerable⟩

theorem handler_db_saveOk (registry : String → RegistryOutcome)
    (advisoryApi : String → AdvisoryOutcome) (uid : String) (pj : PackageJson)
    (projectName filePath : Option String) (now : String) (db : Db) :
    (scanPackageJsonHandler registry advisoryApi (some uid) (some pj)
        projectName filePath now true db).db =
      { db with scans := db.scans ++
          [scanRecord registry advisoryApi uid pj projectName filePath] } :=
  rfl

theorem handler_db_saveFail (registry : String → RegistryOutcome)
    (advisoryApi : String → AdvisoryOutcome) (uid : String) (pj : PackageJson)
    (projectName filePath : Option String) (now : String) (db : Db) :
    (scanPackageJsonHandler registry advisoryApi (some uid) (some pj)
        projectName filePath now false db).db = db :=
  rfl

theorem getProjectStatusByName_congr {db1 db2 : Db}
    (h : db1.projects = db2.projects) (name userId : String) :
    getProjectStatusByName db1 name userId = getProjectStatusByName db2 name userId := by
  unfold getProjectStatusByName
  rw [h]

/-! ### Concrete scenarios -/

/-- A registry oracle that knows only lodash, whose latest version is
`4.17.21`. -/
def regLodash : String → RegistryOutcome := fun n =>
  if n = "lodash" then .success (some "4.17.21") else .failure

/-- An advisory oracle returning an empty advisory list for every package. -/
def advNone : String → AdvisoryOutcome := fun _ => .ok []

/-- A registry oracle for which every lookup fails. -/
def regFailAll : String → RegistryOutcome := fun _ => .failure

/-- An advisory oracle that answers every request with HTTP 403 and a
rate-limit message (the exact shape both rate-limit tests look for). -/
def adv403 : String → AdvisoryOutcome := fun _ =>
  .err ⟨some 403, some "API rate limit exceeded for installation ID 123."⟩

/-- The manifest `{dependencies: {"lodash": "^4.17.20"}}`. -/
def pjLodash20 : PackageJson := ⟨[("lodash", "^4.17.20")], []⟩

/-- A database holding one project `app` of user `u1` with zero rollup
counters and no scans. -/
def dbApp : Db := ⟨[], [⟨"app", "u1", 0, 0, none⟩]⟩

/-- An advisory oracle that answers every request with a plain HTTP 500
error (not a rate limit). -/
def adv500 : String → AdvisoryOutcome := fun _ =>
  .err ⟨some 500, some "Internal Server Error"⟩

/-- An advisory oracle publishing one advisory for `pkgx`, affecting all
versions from `9.0.0` on. -/
def advNine : String → AdvisoryOutcome := fun n =>
  if n = "pkgx" then
    .ok [⟨some "pkgx", [⟨"SEMVER", "9.0.0", none⟩], some "GHSA-abcd1234",
      some "high", some "test advisory", []⟩]
  else .ok []

/-! ### Claims -/

/-- C1: the claim reads "once the advisory API responds with HTTP 403 and a
rate-limit message, no further advisory-API lookups are performed for any
remaining package of that scan, and the scan response carries
`warnings.rateLimited = true`".  The code intends this (the `rateLimited`
flag, the skip guard and the response plumbing all exist) but the 403 is
caught inside `checkVulnerabilities`, which returns `null` instead of
rethrowing, so the flag can never be set: every scan returns
`rateLimited = false`, the advisory API keeps being queried for every
remaining package, and the warning is never attached — even when every
response is a detected-shape rate-limit error. -/
theorem rateLimited_flag_never_set :
    (∀ (registry : String → RegistryOutcome) (advisoryApi : String → AdvisoryOutcome)
      (entries : List (String × String)),
      (analyzeDependencies registry advisoryApi entries).rateLimited = false)
    ∧ isRateLimitError ⟨some 403, some "API rate limit exceeded for installation ID 123."⟩ = true
    ∧ (analyzeDependencies regFailAll adv403
        [("left-pad", "1.0.0"), ("right-pad", "1.0.0")]).advisoryCalls =
        ["left-pad", "right-pad"]
    ∧ ((scanPackageJsonHandler regFailAll adv403 (some "u1")
        (some ⟨[("left-pad", "1.0.0"), ("right-pad", "1.0.0")], []⟩) (some "app") none
        "2026-01-01T00:00:00.000Z" true ⟨[], []⟩).body.map
          (fun b => b.warningsRateLimited)) = some none := by
  refine ⟨fun registry advisoryApi entries => ?_, by decide, by decide, by decide⟩
  rw [analyzeDependencies_eq]

/-- C8: the advisory affected-range membership check compares the cleaned
version against the range's introduced/fixed bounds with plain lexical
string comparison, so `"10.0.0"` orders below `"9.0.0"` and is misclassified
as unaffected even though the numeric-triple order puts it inside the
range. -/
theorem advisory_range_check_is_lexical :
    strLt "10.0.0" "9.0.0" = true
    ∧ numericTripleLt "9.0.0" "10.0.0" = true
    ∧ rangeMatches "10.0.0" ⟨"SEMVER", "9.0.0", none⟩ = false
    ∧ rangeMatches "9.5.0" ⟨"SEMVER", "9.0.0", none⟩ = true
    ∧ checkVulnerabilities advNine "pkgx" "10.0.0" = .ok ⟨none, true⟩
    ∧ checkVulnerabilities advNine "pkgx" "9.5.0" =
        .ok ⟨some ⟨"GHSA-abcd1234", "high", "test advisory", []⟩, true⟩ := by
  refine ⟨by decide, by decide, by decide, by decide, ?_, ?_⟩ <;> rfl

/-- C4 (counterexample): the claim's input `{dependencies: {"lodash":
"^4.17.20"}}` with registry latest `4.17.21` does *not* yield a vulnerable
entry, because the static table holds `lodash@4.17.0`, not `4.17.20`: the
vulnerable map is empty and `summary.vulnerable = 0`, contradicting the
claimed `summary = {total: 1, outdated: 1, vulnerable: 1}`. -/
theorem lodash_example_not_vulnerable :
    knownVulnerablePackages "lodash" "4.17.20" = none
    ∧ ((scanPackageJsonHandler regLodash advNone (some "u1") (some pjLodash20)
        (some "app") none "2026-01-01T00:00:00.000Z" true dbApp).body.map
          (fun b => b.vulnerable)) = some []
    ∧ ((scanPackageJsonHandler regLodash advNone (some "u1") (some pjLodash20)
        (some "app") none "2026-01-01T00:00:00.000Z" true dbApp).body.map
          (fun b => b.summary)) = some ⟨1, 0, 1⟩ := by
  decide

/-- C4 (amended): for the same input, with the advisory API returning no
advisories, the scan reports `outdated.lodash = {current: "4.17.20", latest:
"4.17.21", severity: "low"}`, an empty vulnerable map (the static table
holds `lodash@4.17.0`, not `4.17.20`), and `summary = {outdated: 1,
vulnerable: 0, total: 1}`. -/
theorem lodash_example_result :
    ((scanPackageJsonHandler regLodash advNone (some "u1") (some pjLodash20)
        (some "app") none "2026-01-01T00:00:00.000Z" true dbApp).body.map
          (fun b => b.outdated)) =
        some [("lodash", ⟨"4.17.20", "4.17.21", "low"⟩)]
    ∧ ((scanPackageJsonHandler regLodash advNone (some "u1") (some pjLodash20)
        (some "app") none "2026-01-01T00:00:00.000Z" true dbApp).body.map
          (fun b => b.vulnerable)) = some []
    ∧ ((scanPackageJsonHandler regLodash advNone (some "u1") (some pjLodash20)
        (some "app") none "2026-01-01T00:00:00.000Z" true dbApp).body.map
          (fun b => b.summary)) = some ⟨1, 0, 1⟩
    ∧ knownVulnerablePackages "lodash" "4.17.0" =
        some ⟨"CVE-2019-10744", "high", "Prototype pollution vulnerability in Lodash", []⟩ := by
  decide

/-- C2 (counterexample): the claim reads "after each scan the Project
rollup counters returned by `GET /api/projects/:name/status` equal the
summary of the most recent scan of that project".  After scanning project
`app` (summary `outdated = 1`), the status endpoint still reports
`outdated = 0`: the scan handler never writes the `projects` collection. -/
theorem project_rollup_stale_after_scan :
    (getProjectStatusByName (scanPackageJsonHandler regLodash advNone (some "u1")
        (some pjLodash20) (some "app") none "2026-01-01T00:00:00.000Z" true dbApp).db
        "app" "u1").outdated = 0
    ∧ ((scanPackageJsonHandler regLodash advNone (some "u1") (some pjLodash20)
        (some "app") none "2026-01-01T00:00:00.000Z" true dbApp).db.scans.map
          (fun s => s.summary.outdated)) = [1] := by
  decide

/-- C2 (amended): every successful invocation of the scan handler appends
exactly one new Scan Result record, leaving all previously stored records
untouched — scanning the same manifest twice appends two distinct records —
but the handler never writes the `projects` collection, so the rollup
counters served by `GET /api/projects/:name/status` are identical before and
after any scan (they do not reflect the most recent scan's summary). -/
theorem scan_results_append_only_rollup_untouched
    (registry : String → RegistryOutcome) (advisoryApi : String → AdvisoryOutcome)
    (uid : String) (pj : PackageJson) (projectName filePath : Option String)
    (now1 now2 : String) (db : Db) :
    (scanPackageJsonHandler registry advisoryApi (some uid) (some pj) projectName
        filePath now1 true db).db.scans.length = db.scans.length + 1
    ∧ (scanPackageJsonHandler registry advisoryApi (some uid) (some pj) projectName
        filePath now1 true db).db.scans.take db.scans.length = db.scans
    ∧ (scanPackageJsonHandler registry advisoryApi (some uid) (some pj) projectName
        filePath now2 true (scanPackageJsonHandler registry advisoryApi (some uid)
          (some pj) projectName filePath now1 true db).db).db.scans.length =
        db.scans.length + 2
    ∧ (scanPackageJsonHandler registry advisoryApi (some uid) (some pj) projectName
        filePath now2 true (scanPackageJsonHandler registry advisoryApi (some uid)
          (some pj) projectName filePath now1 true db).db).db.scans.take
        (db.scans.length + 1) =
        (scanPackageJsonHandler registry advisoryApi (some uid) (some pj) projectName
          filePath now1 true db).db.scans
    ∧ (scanPackageJsonHandler registry advisoryApi (some uid) (some pj) projectName
        filePath now2 true (scanPackageJsonHandler registry advisoryApi (some uid)
          (some pj) projectName filePath now1 true db).db).db.projects = db.projects
    ∧ ∀ (n u : String),
        getProjectStatusByName (scanPackageJsonHandler registry advisoryApi (some uid)
          (some pj) projectName filePath now2 true (scanPackageJsonHandler registry
            advisoryApi (some uid) (some pj) projectName filePath now1 true db).db).db
          n u =
        getProjectStatusByName db n u := by
  rw [handler_db_saveOk, handler_db_saveOk]
  have hlen : db.scans.length + 1 =
      (db.scans ++ [scanRecord registry advisoryApi uid pj projectName filePath]).length := by
    simp
  refine ⟨by simp, List.take_left db.scans _, by simp, ?_, rfl, ?_⟩
  · rw [hlen]
    exact List.take_left _ _
  · intro n u
    exact getProjectStatusByName_congr rfl n u

/-- C10: when saving the Scan Result rejects, the handler still returns
HTTP 200 with a response body identical to the one of a successful save
(summary, details and warnings included); the only difference is that no
record is appended to the `scanresults` collection. -/
theorem db_failure_still_returns_200
    (registry : String → RegistryOutcome) (advisoryApi : String → AdvisoryOutcome)
    (uid : String) (pj : PackageJson) (projectName filePath : Option String)
    (now : String) (db : Db) :
    (scanPackageJsonHandler registry advisoryApi (some uid) (some pj) projectName
        filePath now true db).status = 200
    ∧ (scanPackageJsonHandler registry advisoryApi (some uid) (some pj) projectName
        filePath now false db).status = 200
    ∧ (scanPackageJsonHandler registry advisoryApi (some uid) (some pj) projectName
        filePath now true db).body =
      (scanPackageJsonHandler registry advisoryApi (some uid) (some pj) projectName
        filePath now false db).body
    ∧ (scanPackageJsonHandler registry advisoryApi (some uid) (some pj) projectName
        filePath now true db).body.isSome = true
    ∧ (scanPackageJsonHandler registry advisoryApi (some uid) (some pj) projectName
        filePath now false db).db = db
    ∧ (scanPackageJsonHandler registry advisoryApi (some uid) (some pj) projectName
        filePath now true db).db.scans.take db.scans.length = db.scans
    ∧ (scanPackageJsonHandler registry advisoryApi (some uid) (some pj) projectName
        filePath now true db).db.scans.length = db.scans.length + 1
    ∧ (scanPackageJsonHandler registry advisoryApi (some uid) (some pj) projectName
        filePath now true db).db.projects = db.projects := by
  refine ⟨rfl, rfl, rfl, rfl, rfl, ?_, ?_, rfl⟩
  · rw [handler_db_saveOk]
    exact List.take_left db.scans _
  · rw [handler_db_saveOk]
    simp

/-- C3: a package whose cleaned version hits the static known-vulnerable
table is always reported in the vulnerable map with the table's record, and
no advisory-API request is issued for that package. -/
theorem static_table_hit_reported_without_network
    (registry : String → RegistryOutcome) (advisoryApi : String → AdvisoryOutcome)
    (entries : List (String × String)) (name version : String) (v : VulnInfo)
    (hnd : (entries.map Prod.fst).Nodup) (hmem : (name, version) ∈ entries)
    (hv : knownVulnerablePackages name (removeRangeChars version) = some v) :
    (name, VulnEntry.mk (removeRangeChars version) v) ∈
        (analyzeDependencies registry advisoryApi entries).vulnerable
    ∧ name ∉ (analyzeDependencies registry advisoryApi entries).advisoryCalls := by
  rw [analyzeDependencies_eq]
  constructor
  · refine List.mem_filterMap.mpr ⟨(name, version), hmem, ?_⟩
    rw [entryVuln_eq]
    have : checkInfo advisoryApi (name, version).1
        (removeRangeChars (name, version).2) = some v := by
      unfold checkInfo
      rw [hv]
    rw [this]
    rfl
  · intro hin
    obtain ⟨e, he, hk⟩ := List.mem_map.mp hin
    obtain ⟨hees, hsh⟩ := List.mem_filter.mp he
    have : e = (name, version) :=
      eq_of_mem_of_nodup_keys hnd hees hmem hk
    subst this
    unfold staticHit at hsh
    rw [hv] at hsh
    simp at hsh

/-- Witness for C3: scanning `{"lodash": "~4.17.0"}` (cleaned `4.17.0`, a
static-table hit) reports the table's CVE record and issues no advisory
request, whatever the oracles answer. -/
theorem static_table_hit_reported_without_network_witness :
    ("lodash", VulnEntry.mk (removeRangeChars "~4.17.0")
        ⟨"CVE-2019-10744", "high", "Prototype pollution vulnerability in Lodash", []⟩) ∈
      (analyzeDependencies regFailAll advNone [("lodash", "~4.17.0")]).vulnerable
    ∧ "lodash" ∉ (analyzeDependencies regFailAll advNone
        [("lodash", "~4.17.0")]).advisoryCalls :=
  static_table_hit_reported_without_network regFailAll advNone
    [("lodash", "~4.17.0")] "lodash" "~4.17.0"
    ⟨"CVE-2019-10744", "high", "Prototype pollution vulnerability in Lodash", []⟩
    (by decide) (by decide) (by decide)

/-- C9: failure semantics of the per-package lookups — a failed registry
lookup leaves the package out of the outdated map, an advisory lookup that
rejects with a non-rate-limit error leaves a package missing the static
table out of the vulnerable map, the scan still issues exactly one registry
request per package (no retry, and every package is processed), and no
package's advisory lookup is retried. -/
theorem lookup_failures_degrade_and_no_retry
    (registry : String → RegistryOutcome) (advisoryApi : String → AdvisoryOutcome)
    (entries : List (String × String)) (name version : String)
    (hnd : (entries.map Prod.fst).Nodup) (hmem : (name, version) ∈ entries) :
    (registry name = .failure →
      name ∉ (analyzeDependencies registry advisoryApi entries).outdated.map Prod.fst)
    ∧ (∀ err : JsError, advisoryApi name = .err err → isRateLimitError err = false →
        knownVulnerablePackages name (removeRangeChars version) = none →
        name ∉ (analyzeDependencies registry advisoryApi entries).vulnerable.map Prod.fst)
    ∧ (analyzeDependencies registry advisoryApi entries).registryCalls =
        entries.map Prod.fst
    ∧ (analyzeDependencies registry advisoryApi entries).advisoryCalls.count name ≤ 1 := by
  rw [analyzeDependencies_eq]
  refine ⟨?_, ?_, rfl, ?_⟩
  · intro hfail hin
    obtain ⟨e, he, hk, hs⟩ := (mem_keys_filterMap (entryOutdated_key registry)).mp hin
    have : e = (name, version) := eq_of_mem_of_nodup_keys hnd he hmem hk
    subst this
    unfold entryOutdated at hs
    have : getLatestVersion registry name = none := by
      unfold getLatestVersion
      rw [hfail]
    simp only [this] at hs
    exact absurd hs (by simp)
  · intro err herr hnrl htable hin
    obtain ⟨e, he, hk, hs⟩ := (mem_keys_filterMap (entryVuln_key advisoryApi)).mp hin
    have : e = (name, version) := eq_of_mem_of_nodup_keys hnd he hmem hk
    subst this
    rw [entryVuln_eq] at hs
    have : checkInfo advisoryApi name (removeRangeChars version) = none := by
      unfold checkInfo
      rw [htable, herr]
    simp only [this] at hs
    exact absurd hs (by simp)
  · calc ((entries.filter (fun e => !staticHit e)).map Prod.fst).count name
        ≤ (entries.map Prod.fst).count name :=
          List.Sublist.count_le ((List.filter_sublist entries).map Prod.fst) name
      _ ≤ 1 := List.nodup_iff_count_le_one.mp hnd name

/-- Witness for C9: package `a`, whose registry lookup fails and whose
advisory lookup rejects with a plain 500 error, appears in neither result
map; both packages of the scan incur exactly one registry request, and `a`
at most one advisory request. -/
theorem lookup_failures_degrade_and_no_retry_witness :
    "a" ∉ (analyzeDependencies regFailAll adv500 [("a", "^1.0.0"), ("b", "2.0.0")]).outdated.map Prod.fst
    ∧ "a" ∉ (analyzeDependencies regFailAll adv500 [("a", "^1.0.0"), ("b", "2.0.0")]).vulnerable.map Prod.fst
    ∧ (analyzeDependencies regFailAll adv500 [("a", "^1.0.0"), ("b", "2.0.0")]).registryCalls = ["a", "b"]
    ∧ (analyzeDependencies regFailAll adv500 [("a", "^1.0.0"), ("b", "2.0.0")]).advisoryCalls.count "a" ≤ 1 := by
  have T := lookup_failures_degrade_and_no_retry regFailAll adv500
    [("a", "^1.0.0"), ("b", "2.0.0")] "a" "^1.0.0" (by decide) (by decide)
  exact ⟨T.1 (by decide),
    T.2.1 ⟨some 500, some "Internal Server Error"⟩ (by decide) (by decide) (by decide),
    T.2.2.1, T.2.2.2⟩

/-- C6: within a scan, a package is reported outdated exactly when the
registry yielded a latest version strictly greater than the cleaned declared
version under the reference numeric-triple order (`specOutdated`, the
spec-words definition); the comparator used by the code agrees with that
reference everywhere, and equal versions are never marked outdated. -/
theorem outdated_iff_triple_newer
    (registry : String → RegistryOutcome) (advisoryApi : String → AdvisoryOutcome)
    (entries : List (String × String)) (name version : String)
    (hnd : (entries.map Prod.fst).Nodup) (hmem : (name, version) ∈ entries) :
    ((∃ info, (name, info) ∈ (analyzeDependencies registry advisoryApi entries).outdated) ↔
      ∃ l, getLatestVersion registry name = some l ∧
        specOutdated (removeRangeChars version) l = true)
    ∧ (∀ a b : String, isNewerVersion a b = specOutdated a b)
    ∧ (∀ v : String, specOutdated v v = false) := by
  rw [analyzeDependencies_eq]
  refine ⟨⟨?_, ?_⟩, isNewerVersion_eq_specOutdated, specOutdated_irrefl⟩
  · rintro ⟨info, hin⟩
    obtain ⟨e, he, hfe⟩ := List.mem_filterMap.mp hin
    have hk : name = e.1 := entryOutdated_key registry e (name, info) hfe
    have heq : e = (name, version) := eq_of_mem_of_nodup_keys hnd he hmem hk.symm
    subst heq
    unfold entryOutdated at hfe
    split at hfe
    · rename_i l hl
      split at hfe
      · rename_i hn
        exact ⟨l, hl, by rw [← isNewerVersion_eq_specOutdated]; exact hn⟩
      · exact absurd hfe (by simp)
    · exact absurd hfe (by simp)
  · rintro ⟨l, hl, hs⟩
    refine ⟨⟨removeRangeChars version, l,
      calculateUpdateSeverity (removeRangeChars version) l⟩,
      List.mem_filterMap.mpr ⟨(name, version), hmem, ?_⟩⟩
    unfold entryOutdated
    rw [hl]
    simp [isNewerVersion_eq_specOutdated, hs]

/-- Witness for C6: lodash declared `^4.17.20` with registry latest
`4.17.21` is reported outdated, matching the reference numeric-triple
comparison. -/
theorem outdated_iff_triple_newer_witness :
    ((∃ info, ("lodash", info) ∈
        (analyzeDependencies regLodash advNone [("lodash", "^4.17.20")]).outdated) ↔
      ∃ l, getLatestVersion regLodash "lodash" = some l ∧
        specOutdated (removeRangeChars "^4.17.20") l = true)
    ∧ (∀ a b : String, isNewerVersion a b = specOutdated a b)
    ∧ (∀ v : String, specOutdated v v = false) :=
  outdated_iff_triple_newer regLodash advNone [("lodash", "^4.17.20")]
    "lodash" "^4.17.20" (by decide) (by decide)

/-- C5 (counterexample): the claim reads "severity is high whenever the
major components differ"; for current `2.0.0` and latest `1.5.0` the major
components differ, yet `calculateUpdateSeverity` returns `medium` (the code
tests `latestMajor > currentMajor`, and here the latest major is
smaller). -/
theorem severity_major_downgrade_not_high :
    versionComponent "2.0.0" 0 ≠ versionComponent "1.5.0" 0
    ∧ calculateUpdateSeverity "2.0.0" "1.5.0" = "medium"
    ∧ calculateUpdateSeverity "2.0.0" "1.5.0" ≠ "high" := by
  decide

/-- C5 (amended): when both versions' major and minor components parse, the
severity is `high` exactly when the latest major is strictly greater than
the current major, `medium` when it is not but the latest minor is strictly
greater than the current minor, and `low` otherwise (the patch component is
never consulted; missing or unparsable components never compare greater). -/
theorem calculateUpdateSeverity_eq (cur lat : String) (a b c d : Int)
    (h1 : versionComponent cur 0 = some a) (h2 : versionComponent cur 1 = some b)
    (h3 : versionComponent lat 0 = some c) (h4 : versionComponent lat 1 = some d) :
    calculateUpdateSeverity cur lat =
      if c > a then "high" else if d > b then "medium" else "low" := by
  unfold calculateUpdateSeverity
  rw [h1, h2, h3, h4]
  simp [jsGt]

/-- Witness for C5: `1.2.3` against latest `1.5.0` parses to majors `1`,`1`
and minors `2`,`5`, and the severity is `medium`. -/
theorem calculateUpdateSeverity_eq_witness :
    calculateUpdateSeverity "1.2.3" "1.5.0" = "medium" := by
  have T := calculateUpdateSeverity_eq "1.2.3" "1.5.0" 1 2 1 5
    (by decide) (by decide) (by decide) (by decide)
  rw [T]
  norm_num

/-- C7 (counterexample): the claim reads "for every declared version-range
string the cleaned string contains only digits and dots"; cleaning
`^1.0.0-beta.2` removes only the caret and keeps the dash and letters. -/
theorem clean_keeps_non_digit_chars :
    removeRangeChars "^1.0.0-beta.2" = "1.0.0-beta.2"
    ∧ digitsDotsOnly (removeRangeChars "^1.0.0-beta.2") = false := by
  decide

/-- C7 (amended): cleaning removes every occurrence of `^ ~ > = <` from any
declared string (so no range-operator character survives), and whenever the
input consists only of digits, dots and those operators, the cleaned string
contains only digits and dots; in particular `^1.2.3` cleans to `1.2.3`. -/
theorem clean_removes_range_operators :
    (∀ (s : String) (c : Char), c ∈ (removeRangeChars s).data → isRangeChar c = false)
    ∧ (∀ s : String, cleanableOnly s = true →
        digitsDotsOnly (removeRangeChars s) = true)
    ∧ removeRangeChars "^1.2.3" = "1.2.3" := by
  refine ⟨?_, ?_, by decide⟩
  · intro s c hc
    have := (List.mem_filter.mp hc).2
    simpa using this
  · intro s hs
    unfold digitsDotsOnly removeRangeChars
    rw [List.all_eq_true]
    intro c hc
    obtain ⟨hcs, hcr⟩ := List.mem_filter.mp hc
    have hall := List.all_eq_true.mp hs c hcs
    simp only [Bool.or_eq_true, decide_eq_true_eq] at hall ⊢
    rcases hall with (h | h) | h
    · exact Or.inl h
    · exact Or.inr h
    · exact absurd h (by simpa using hcr)

/-- Witness for C7: the all-operator-and-digit input `^1.2.3` cleans to a
digits-and-dots-only string, and its first cleaned character is not a range
operator. -/
theorem clean_removes_range_operators_witness :
    isRangeChar '1' = false ∧ digitsDotsOnly (removeRangeChars "^1.2.3") = true :=
  ⟨clean_removes_range_operators.1 "^1.2.3" '1' (by decide),
    clean_removes_range_operators.2.1 "^1.2.3" (by decide)⟩

end PackSafe
